import Mathlib

/-!
Shallow embedding of the telemetry codec (`src/rafiki/model/log.py`) and the
worker supervisor bootstrap (`src/scripts/start_worker.py`) of singa-auto.

Python JSON values are modelled by the inductive `Json`; a textual log line is
modelled by `Line`, which records the outcome of `json.loads` on the line:
either the parse fails with `ValueError` (`Line.junk`, remembering the raw
text) or it succeeds and yields a JSON value (`Line.jval`).  `json.dumps`
of a dict therefore produces `Line.jval (Json.obj ...)`, and Python's
round trip `json.loads(json.dumps(v)) == v` is the identity on `Json`.
Numbers are modelled as rationals (Python ints and floats round-trip exactly
through `json.dumps`/`json.loads`).  Python dicts are association lists in
insertion order; dicts produced by `json.loads` or by keyword arguments have
pairwise distinct keys, which theorems assume where it matters.
-/

inductive Json where
  | null
  | bool (b : Bool)
  | num (q : ℚ)
  | str (s : String)
  | arr (elems : List Json)
  | obj (pairs : List (String × Json))

/-- A textual log line, identified by the outcome of `json.loads` on it. -/
inductive Line where
  | junk (raw : String)
  | jval (v : Json)

/-- Runtime errors Python can raise while `parse_logs` manipulates a decoded
value; only `TypeError` is reachable there. -/
inductive PyError where
  | typeError (msg : String)
deriving DecidableEq, Repr

/-- Constant `MODEL_LOG_DATETIME_FORMAT` of `log.py` (second resolution). -/
def MODEL_LOG_DATETIME_FORMAT : String := "%Y-%m-%dT%H:%M:%S"

/-- Class attribute `LogType.PLOT` of `log.py`. -/
def LogType.PLOT : String := "PLOT"

/-- Class attribute `LogType.METRICS` of `log.py`. -/
def LogType.METRICS : String := "METRICS"

/-- Class attribute `LogType.MESSAGE` of `log.py`. -/
def LogType.MESSAGE : String := "MESSAGE"

/-- Python dict assignment `d[k] = v`: if the key is present its value is
replaced in place, otherwise the pair is appended in insertion order. -/
def setKey (pairs : List (String × Json)) (k : String) (v : Json) :
    List (String × Json) :=
  if pairs.any (fun p => p.1 = k) then
    pairs.map (fun p => if p.1 = k then (k, v) else p)
  else
    pairs ++ [(k, v)]

namespace ModelLogger

/-- Method `ModelLogger._log` of `log.py`: stamps the dict with `type` and
`time` (`datetime.datetime.now().strftime(...)` is passed in as `now`, the
already-formatted current time) and emits `json.dumps(log_dict)` as one line
to the underlying logger.  Returns the emitted line. -/
def «_log» (log_type : String) (log_dict : List (String × Json))
    (now : String) : Line :=
  Line.jval (Json.obj (setKey (setKey log_dict "type" (Json.str log_type))
    "time" (Json.str now)))

/-- JSON value of the `x_axis` entry built by `define_plot`: Python `None`
serializes as JSON `null`. -/
def jsonOfOptStr : Option String → Json
  | none => Json.null
  | some s => Json.str s

/-- Method `ModelLogger.define_plot(title, metrics, x_axis=None)` of
`log.py`: logs a PLOT record with the dict
`{'title': title, 'metrics': metrics, 'x_axis': x_axis}`. -/
def define_plot (title : String) (metrics : List String)
    (x_axis : Option String) (now : String) : Line :=
  «_log» LogType.PLOT
    [("title", Json.str title),
     ("metrics", Json.arr (metrics.map Json.str)),
     ("x_axis", jsonOfOptStr x_axis)] now

/-- Method `ModelLogger.define_loss_plot` of `log.py`. -/
def define_loss_plot (now : String) : Line :=
  define_plot "Loss Over Epochs" ["loss"] (some "epoch") now

/-- Method `ModelLogger.log(msg='', **metrics)` of `log.py`: if `msg` is
truthy (non-empty) a MESSAGE record is logged, and if `metrics` is truthy
(non-empty) a METRICS record is logged; the list of emitted lines is
returned in emission order. -/
def log (msg : String) (metrics : List (String × Json)) (now : String) :
    List Line :=
  (if msg ≠ "" then [«_log» LogType.MESSAGE [("message", Json.str msg)] now]
   else [])
  ++ (if metrics.isEmpty then [] else [«_log» LogType.METRICS metrics now])

/-- Static method `ModelLogger.parse_log_line` of `log.py`:
`json.loads(log_line)` with `ValueError` mapped to the empty dict `{}`. -/
def parse_log_line : Line → Json
  | Line.junk _ => Json.obj []
  | Line.jval v => v

/-- Python membership test `key in v` for a JSON value `v`, as evaluated by
`parse_logs`: key lookup on a dict, element equality on a list (a Python
string equals no number, boolean, list or dict), substring test on a string,
and a `TypeError` on `None`, booleans and numbers. -/
def pyContains (v : Json) (key : String) : Except PyError Bool :=
  match v with
  | Json.obj pairs => Except.ok (pairs.lookup key).isSome
  | Json.arr elems =>
      Except.ok (elems.any (fun e => match e with
        | Json.str s => s = key
        | _ => false))
  | Json.str s => Except.ok (decide (key.toList <:+: s.toList))
  | _ => Except.error (PyError.typeError "argument is not iterable")

/-- Python subscript `v[key]` with a string key, as evaluated by
`parse_logs`: dict lookup, `TypeError` on anything else (`parse_logs` only
reaches it when the membership test succeeded, so the dict key is present
and lists and strings raise on the string index). -/
def pyGetItem (v : Json) (key : String) : Except PyError Json :=
  match v with
  | Json.obj pairs =>
      match pairs.lookup key with
      | some x => Except.ok x
      | none => Except.error (PyError.typeError "KeyError")
  | _ => Except.error (PyError.typeError "indices must be integers")

/-- Python `del v[key]` with a string key: removes the key from a dict,
raises a `TypeError` on anything else. -/
def pyDelItem (v : Json) (key : String) : Except PyError Json :=
  match v with
  | Json.obj pairs => Except.ok (Json.obj (pairs.filter (fun p => p.1 ≠ key)))
  | _ => Except.error (PyError.typeError "does not support item deletion")

/-- The guard `if 'time' not in log_dict or 'type' not in log_dict` of
`parse_logs`, with Python's left-to-right short-circuit evaluation. -/
def missingTimeOrType (v : Json) : Except PyError Bool :=
  match pyContains v "time" with
  | Except.error e => Except.error e
  | Except.ok false => Except.ok true
  | Except.ok true =>
      match pyContains v "type" with
      | Except.error e => Except.error e
      | Except.ok hasType => Except.ok !hasType

/-- The pairs of a JSON object (`parse_logs` only applies this to values
already known to be dicts). -/
def objPairs : Json → List (String × Json)
  | Json.obj pairs => pairs
  | _ => []

/-- Python `d.get('message')`: `None` when the key is absent. -/
def dictGetMessage (d : Json) : Json :=
  match (objPairs d).lookup "message" with
  | some x => x
  | none => Json.null

/-- Static method `ModelLogger.parse_logs` of `log.py`: scans the lines once,
skips a decoded value in which `time` or `type` is missing, reads and deletes
both keys, and appends the record to `messages`, `metrics` or `plots`
according to the `type` tag (any other tag is dropped); an uncaught Python
error aborts the whole call.  Returns `(messages, metrics, plots)`. -/
def parse_logs : List Line → Except PyError (List Json × List Json × List Json)
  | [] => Except.ok ([], [], [])
  | line :: rest =>
      let log_dict := parse_log_line line
      match missingTimeOrType log_dict with
      | Except.error e => Except.error e
      | Except.ok true => parse_logs rest
      | Except.ok false =>
          match pyGetItem log_dict "time" with
          | Except.error e => Except.error e
          | Except.ok log_datetime =>
              match pyGetItem log_dict "type" with
              | Except.error e => Except.error e
              | Except.ok log_type =>
                  match pyDelItem log_dict "time" with
                  | Except.error e => Except.error e
                  | Except.ok d1 =>
                      match pyDelItem d1 "type" with
                      | Except.error e => Except.error e
                      | Except.ok d2 =>
                          match parse_logs rest with
                          | Except.error e => Except.error e
                          | Except.ok (messages, metrics, plots) =>
                              match log_type with
                              | Json.str tag =>
                                  if tag = LogType.MESSAGE then
                                    Except.ok
                                      (Json.obj [("time", log_datetime),
                                        ("message", dictGetMessage d2)] ::
                                        messages, metrics, plots)
                                  else if tag = LogType.METRICS then
                                    Except.ok (messages,
                                      Json.obj (("time", log_datetime) ::
                                        objPairs d2) :: metrics, plots)
                                  else if tag = LogType.PLOT then
                                    Except.ok (messages, metrics,
                                      Json.obj (objPairs d2) :: plots)
                                  else
                                    Except.ok (messages, metrics, plots)
                              | _ => Except.ok (messages, metrics, plots)

/-- A line whose `json.loads` either fails (so `parse_log_line` yields `{}`)
or yields a dict.  Every line the logger itself emits is of this shape;
`parse_logs` raises on some lines outside it. -/
def cleanLine : Line → Bool
  | Line.junk _ => true
  | Line.jval (Json.obj _) => true
  | Line.jval _ => false

/-- State of the pairs of `log_dict` after `del log_dict['time']` followed by
`del log_dict['type']` in `parse_logs`. -/
def cleanPairs (pairs : List (String × Json)) : List (String × Json) :=
  (pairs.filter (fun p => p.1 ≠ "time")).filter (fun p => p.1 ≠ "type")

/-- The record `parse_logs` appends to `messages` for one line, when it
appends one. -/
def msgOf (l : Line) : Option Json :=
  match parse_log_line l with
  | Json.obj pairs =>
      match pairs.lookup "time", pairs.lookup "type" with
      | some t, some (Json.str tag) =>
          if tag = LogType.MESSAGE then
            some (Json.obj [("time", t),
              ("message", dictGetMessage (Json.obj (cleanPairs pairs)))])
          else none
      | _, _ => none
  | _ => none

/-- The record `parse_logs` appends to `metrics` for one line, when it
appends one: the line's timestamp merged flat with the remaining pairs. -/
def metOf (l : Line) : Option Json :=
  match parse_log_line l with
  | Json.obj pairs =>
      match pairs.lookup "time", pairs.lookup "type" with
      | some t, some (Json.str tag) =>
          if tag = LogType.METRICS then
            some (Json.obj (("time", t) :: cleanPairs pairs))
          else none
      | _, _ => none
  | _ => none

/-- The record `parse_logs` appends to `plots` for one line, when it appends
one: only the remaining pairs, with no timestamp. -/
def plotOf (l : Line) : Option Json :=
  match parse_log_line l with
  | Json.obj pairs =>
      match pairs.lookup "time", pairs.lookup "type" with
      | some _, some (Json.str tag) =>
          if tag = LogType.PLOT then
            some (Json.obj (cleanPairs pairs))
          else none
      | _, _ => none
  | _ => none

/-- The `type` tag of a decoded line, when the line decodes to a dict whose
`type` entry is a string. -/
def recordTag (l : Line) : Option String :=
  match parse_log_line l with
  | Json.obj pairs =>
      match pairs.lookup "type" with
      | some (Json.str s) => some s
      | _ => none
  | _ => none

end ModelLogger

/-!
Embedding of `src/scripts/start_worker.py`.  The install retry loop is the
module-level `for i in range(10): ... else: raise`; its observable behaviour
for a given sequence of exit statuses of `os.system(install_command)` is the
number of attempts made, the sequence of `time.sleep` durations, and whether
the script proceeds (`break`) or raises the fatal `Exception` (the `else`
branch of the `for`).
-/

/-- Observable outcome of the install retry loop: how many times the install
command was executed, the durations of the sleeps performed in order, and
whether the script proceeds (`true`) or raises the fatal error (`false`). -/
structure InstallResult where
  attempts : Nat
  sleeps : List Nat
  ok : Bool
deriving DecidableEq, Repr

/-- The install loop of `start_worker.py` at iteration `i` of `range(10)`
with `fuel` iterations of the range remaining, driven by the exit status
`exitCode j` that `os.system` returns on the `j`-th iteration: a non-zero
status prints, sleeps 3 and retries, a zero status breaks out, and
exhausting the range raises (the `else` branch of the `for`). -/
def installLoopFrom (exitCode : Nat → Int) : Nat → Nat → InstallResult
  | _, 0 => ⟨0, [], false⟩
  | i, fuel + 1 =>
      if exitCode i ≠ 0 then
        let r := installLoopFrom exitCode (i + 1) fuel
        ⟨r.attempts + 1, 3 :: r.sleeps, r.ok⟩
      else
        ⟨1, [], true⟩

/-- The whole module-level install retry loop: `for i in range(10)`. -/
def installRetry (exitCode : Nat → Int) : InstallResult :=
  installLoopFrom exitCode 0 10

/-- Modelled from the spec: the `ServiceType` constants live in
`singa_auto.constants`, which is not under `src/`; the spec gives the closed
enumeration `{Train, Inference, Advisor}`, and `start_worker.py` formats the
offending value into the error string, so the constants are modelled as the
three distinguished tag strings. -/
def ServiceType.TRAIN : String := "TRAIN"

/-- Modelled from the spec: see `ServiceType.TRAIN`. -/
def ServiceType.INFERENCE : String := "INFERENCE"

/-- Modelled from the spec: see `ServiceType.TRAIN`. -/
def ServiceType.ADVISOR : String := "ADVISOR"

/-- A constructed worker instance: `TrainWorker(service_id, container_id)`,
`InferenceWorker(service_id, container_id)` or `AdvisorWorker(service_id)`
(their implementations live outside `src/`; only which constructor ran and
with which arguments is observable here). -/
inductive WorkerKind where
  | train (service_id container_id : String)
  | inference (service_id container_id : String)
  | advisor (service_id : String)
deriving DecidableEq, Repr

/-- Function `start_worker` of `start_worker.py`: dispatches on
`service_type`, constructs the matching worker, stores it in the global
`worker` and calls its blocking `start()`; an unrecognized type raises
`Exception('Invalid service type: ...')` before any constructor runs, so on
error the global `worker` keeps its previous value. -/
def start_worker (service_id service_type container_id : String)
    (worker : Option WorkerKind) :
    Except String (Option WorkerKind) :=
  if service_type = ServiceType.TRAIN then
    Except.ok (some (WorkerKind.train service_id container_id))
  else if service_type = ServiceType.INFERENCE then
    Except.ok (some (WorkerKind.inference service_id container_id))
  else if service_type = ServiceType.ADVISOR then
    Except.ok (some (WorkerKind.advisor service_id))
  else
    Except.error ("Invalid service type: " ++ service_type)

/-- Function `stop_worker` of `start_worker.py`: reads the global `worker`;
if it is `None` nothing happens, otherwise `worker.stop()` is called.  The
result is the (unchanged) global `worker` together with the list of workers
that received a `stop()` signal. -/
def stop_worker (worker : Option WorkerKind) :
    Option WorkerKind × List WorkerKind :=
  match worker with
  | none => (none, [])
  | some w => (some w, [w])

lemma lookupStr_cons {β : Type} (k a : String) (b : β) (es : List (String × β)) :
    ((a, b) :: es).lookup k = if k = a then some b else es.lookup k := by
  rcases eq_or_ne k a with h | h
  · simp [List.lookup_cons, h]
  · simp [List.lookup_cons, beq_false_of_ne h, if_neg h]

lemma lookup_map_set_self (k : String) (v : Json) :
    ∀ ps : List (String × Json), (ps.any fun p => p.1 = k) = true →
      (ps.map fun p => if p.1 = k then (k, v) else p).lookup k = some v
  | [], h => by simp at h
  | (a, b) :: ps, h => by
      by_cases hp : a = k
      · subst hp
        simp [lookupStr_cons]
      · have h' : (ps.any fun p => p.1 = k) = true := by
          simp only [List.any_cons, Bool.or_eq_true, decide_eq_true_eq] at h
          exact h.resolve_left hp
        rw [List.map_cons]
        simp only [if_neg hp]
        rw [lookupStr_cons, if_neg fun hk => hp hk.symm]
        exact lookup_map_set_self k v ps h'

lemma lookup_append_single_self (k : String) (v : Json) :
    ∀ ps : List (String × Json), (ps.any fun p => p.1 = k) = false →
      ((ps ++ [(k, v)]).lookup k) = some v
  | [], _ => by simp [lookupStr_cons]
  | (a, b) :: ps, h => by
      simp only [List.any_cons, Bool.or_eq_false_iff, decide_eq_false_iff_not]
        at h
      rw [List.cons_append, lookupStr_cons, if_neg fun hk => h.1 hk.symm]
      exact lookup_append_single_self k v ps h.2

lemma lookup_map_set_ne (k k' : String) (v : Json) (hne : k' ≠ k) :
    ∀ ps : List (String × Json),
      (ps.map fun p => if p.1 = k then (k, v) else p).lookup k' = ps.lookup k'
  | [] => by simp
  | (a, b) :: ps => by
      by_cases hp : a = k
      · subst hp
        rw [List.map_cons]
        have hhead : (if (a, b).1 = a then (a, v) else (a, b)) = (a, v) := by
          simp
        rw [hhead, lookupStr_cons, lookupStr_cons, if_neg hne, if_neg hne]
        exact lookup_map_set_ne a k' v hne ps
      · rw [List.map_cons]
        simp only [if_neg hp]
        by_cases hk : k' = a
        · simp [lookupStr_cons, hk]
        · rw [lookupStr_cons, lookupStr_cons, if_neg hk, if_neg hk]
          exact lookup_map_set_ne k k' v hne ps

lemma lookup_append_single_ne (k k' : String) (v : Json) (hne : k' ≠ k) :
    ∀ ps : List (String × Json), ((ps ++ [(k, v)]).lookup k') = ps.lookup k'
  | [] => by simp [lookupStr_cons, if_neg hne]
  | (a, b) :: ps => by
      by_cases hk : k' = a
      · simp [lookupStr_cons, hk]
      · rw [List.cons_append, lookupStr_cons, lookupStr_cons, if_neg hk,
          if_neg hk]
        exact lookup_append_single_ne k k' v hne ps

lemma lookup_setKey_self (ps : List (String × Json)) (k : String) (v : Json) :
    (setKey ps k v).lookup k = some v := by
  unfold setKey
  split
  · rename_i h
    exact lookup_map_set_self k v ps h
  · rename_i h
    exact lookup_append_single_self k v ps (Bool.not_eq_true _ ▸ h)

lemma lookup_setKey_ne (ps : List (String × Json)) (k k' : String) (v : Json)
    (hne : k' ≠ k) : (setKey ps k v).lookup k' = ps.lookup k' := by
  unfold setKey
  split
  · exact lookup_map_set_ne k k' v hne ps
  · exact lookup_append_single_ne k k' v hne ps

lemma lookup_of_mem_nodup (ps : List (String × Json)) (k : String) (v : Json)
    (hnd : (ps.map Prod.fst).Nodup) (hmem : (k, v) ∈ ps) :
    ps.lookup k = some v := by
  induction ps with
  | nil => simp at hmem
  | cons p ps ih =>
      rcases p with ⟨a, b⟩
      simp only [List.map_cons, List.nodup_cons] at hnd
      rcases List.mem_cons.mp hmem with h | h
      · rw [lookupStr_cons]
        rcases Prod.mk.injEq .. ▸ h with ⟨h1, h2⟩
        simp [h1, h2]
      · have hk : k ≠ a := by
          intro hk
          subst hk
          exact hnd.1 (List.mem_map.mpr ⟨(k, v), h, rfl⟩)
        rw [lookupStr_cons, if_neg hk]
        exact ih hnd.2 h

namespace ModelLogger

lemma parse_logs_junk (raw : String) (rest : List Line) :
    parse_logs (Line.junk raw :: rest) = parse_logs rest := rfl

lemma missingTimeOrType_none_time (pairs : List (String × Json))
    (ht : pairs.lookup "time" = none) :
    missingTimeOrType (Json.obj pairs) = Except.ok true := by
  simp [missingTimeOrType, pyContains, ht]

lemma missingTimeOrType_none_type (pairs : List (String × Json)) (t : Json)
    (ht : pairs.lookup "time" = some t)
    (hty : pairs.lookup "type" = none) :
    missingTimeOrType (Json.obj pairs) = Except.ok true := by
  simp [missingTimeOrType, pyContains, ht, hty]

lemma missingTimeOrType_both (pairs : List (String × Json)) (t ty : Json)
    (ht : pairs.lookup "time" = some t)
    (hty : pairs.lookup "type" = some ty) :
    missingTimeOrType (Json.obj pairs) = Except.ok false := by
  simp [missingTimeOrType, pyContains, ht, hty]

lemma parse_logs_cons_skip (l : Line) (rest : List Line)
    (h : missingTimeOrType (parse_log_line l) = Except.ok true) :
    parse_logs (l :: rest) = parse_logs rest := by
  simp [parse_logs, h]

end ModelLogger

namespace ModelLogger

lemma parse_logs_cons_strtag (pairs : List (String × Json))
    (rest : List Line) (t : Json) (tag : String)
    (ht : pairs.lookup "time" = some t)
    (hty : pairs.lookup "type" = some (Json.str tag)) :
    parse_logs (Line.jval (Json.obj pairs) :: rest) =
      match parse_logs rest with
      | Except.error e => Except.error e
      | Except.ok (messages, metrics, plots) =>
          if tag = LogType.MESSAGE then
            Except.ok (Json.obj [("time", t), ("message",
              dictGetMessage (Json.obj (cleanPairs pairs)))] :: messages,
              metrics, plots)
          else if tag = LogType.METRICS then
            Except.ok (messages,
              Json.obj (("time", t) :: cleanPairs pairs) :: metrics, plots)
          else if tag = LogType.PLOT then
            Except.ok (messages, metrics,
              Json.obj (cleanPairs pairs) :: plots)
          else
            Except.ok (messages, metrics, plots) := by
  have e0 := missingTimeOrType_both pairs t (Json.str tag) ht hty
  have e1 : pyGetItem (Json.obj pairs) "time" = Except.ok t := by
    simp [pyGetItem, ht]
  have e2 : pyGetItem (Json.obj pairs) "type" = Except.ok (Json.str tag) := by
    simp [pyGetItem, hty]
  simp only [parse_logs, parse_log_line, e0, e1, e2, pyDelItem, objPairs,
    cleanPairs]

lemma parse_logs_cons_nonstrtag (pairs : List (String × Json))
    (rest : List Line) (t ty : Json)
    (ht : pairs.lookup "time" = some t)
    (hty : pairs.lookup "type" = some ty)
    (hns : ∀ s, ty ≠ Json.str s) :
    parse_logs (Line.jval (Json.obj pairs) :: rest) = parse_logs rest := by
  have e0 := missingTimeOrType_both pairs t ty ht hty
  have e1 : pyGetItem (Json.obj pairs) "time" = Except.ok t := by
    simp [pyGetItem, ht]
  have e2 : pyGetItem (Json.obj pairs) "type" = Except.ok ty := by
    simp [pyGetItem, hty]
  simp only [parse_logs, parse_log_line, e0, e1, e2, pyDelItem]
  rcases hr : parse_logs rest with e | ⟨ms, mets, ps⟩
  · cases ty <;> rfl
  · cases ty with
    | str s => exact absurd rfl (hns s)
    | null => rfl
    | bool b => rfl
    | num q => rfl
    | arr elems => rfl
    | obj prs => rfl

lemma msgOf_obj (pairs : List (String × Json)) :
    msgOf (Line.jval (Json.obj pairs)) =
      match pairs.lookup "time", pairs.lookup "type" with
      | some t, some (Json.str tag) =>
          if tag = LogType.MESSAGE then
            some (Json.obj [("time", t),
              ("message", dictGetMessage (Json.obj (cleanPairs pairs)))])
          else none
      | _, _ => none := rfl

lemma metOf_obj (pairs : List (String × Json)) :
    metOf (Line.jval (Json.obj pairs)) =
      match pairs.lookup "time", pairs.lookup "type" with
      | some t, some (Json.str tag) =>
          if tag = LogType.METRICS then
            some (Json.obj (("time", t) :: cleanPairs pairs))
          else none
      | _, _ => none := rfl

lemma plotOf_obj (pairs : List (String × Json)) :
    plotOf (Line.jval (Json.obj pairs)) =
      match pairs.lookup "time", pairs.lookup "type" with
      | some _, some (Json.str tag) =>
          if tag = LogType.PLOT then
            some (Json.obj (cleanPairs pairs))
          else none
      | _, _ => none := rfl

lemma parse_logs_clean (lines : List Line)
    (h : ∀ l ∈ lines, cleanLine l = true) :
    parse_logs lines = Except.ok (lines.filterMap msgOf,
      lines.filterMap metOf, lines.filterMap plotOf) := by
  induction lines with
  | nil => rfl
  | cons l rest ih =>
      have hrest : ∀ x ∈ rest, cleanLine x = true :=
        fun x hx => h x (List.mem_cons_of_mem _ hx)
      have ihr := ih hrest
      have hl : cleanLine l = true := h l (List.mem_cons_self _ _)
      cases l with
      | junk raw =>
          rw [parse_logs_junk, ihr]
          rfl
      | jval v =>
          cases v with
          | null => simp [cleanLine] at hl
          | bool b => simp [cleanLine] at hl
          | num q => simp [cleanLine] at hl
          | str s => simp [cleanLine] at hl
          | arr elems => simp [cleanLine] at hl
          | obj pairs =>
              rcases ht : pairs.lookup "time" with _ | t
              · rw [parse_logs_cons_skip (Line.jval (Json.obj pairs)) rest
                  (missingTimeOrType_none_time pairs ht), ihr]
                simp [List.filterMap_cons, msgOf_obj, metOf_obj, plotOf_obj,
                  ht]
              · rcases hty : pairs.lookup "type" with _ | ty
                · rw [parse_logs_cons_skip (Line.jval (Json.obj pairs)) rest
                    (missingTimeOrType_none_type pairs t ht hty), ihr]
                  simp [List.filterMap_cons, msgOf_obj, metOf_obj,
                    plotOf_obj, ht, hty]
                · cases ty with
                  | str tag =>
                      rw [parse_logs_cons_strtag pairs rest t tag ht hty, ihr]
                      by_cases h1 : tag = LogType.MESSAGE
                      · have hm : ¬tag = LogType.METRICS := by rw [h1]; decide
                        have hp : ¬tag = LogType.PLOT := by rw [h1]; decide
                        simp only [List.filterMap_cons, msgOf_obj, metOf_obj,
                          plotOf_obj, ht, hty, if_pos h1, if_neg hm,
                          if_neg hp]
                      · by_cases h2 : tag = LogType.METRICS
                        · have hp : ¬tag = LogType.PLOT := by rw [h2]; decide
                          simp only [List.filterMap_cons, msgOf_obj,
                            metOf_obj, plotOf_obj, ht, hty, if_neg h1,
                            if_pos h2, if_neg hp]
                        · by_cases h3 : tag = LogType.PLOT
                          · simp only [List.filterMap_cons, msgOf_obj,
                              metOf_obj, plotOf_obj, ht, hty, if_neg h1,
                              if_neg h2, if_pos h3]
                          · simp only [List.filterMap_cons, msgOf_obj,
                              metOf_obj, plotOf_obj, ht, hty, if_neg h1,
                              if_neg h2, if_neg h3]
                  | null =>
                      rw [parse_logs_cons_nonstrtag pairs rest t _ ht hty
                        (fun s hs => Json.noConfusion hs), ihr]
                      simp [List.filterMap_cons, msgOf_obj, metOf_obj,
                        plotOf_obj, ht, hty]
                  | bool b =>
                      rw [parse_logs_cons_nonstrtag pairs rest t _ ht hty
                        (fun s hs => Json.noConfusion hs), ihr]
                      simp [List.filterMap_cons, msgOf_obj, metOf_obj,
                        plotOf_obj, ht, hty]
                  | num q =>
                      rw [parse_logs_cons_nonstrtag pairs rest t _ ht hty
                        (fun s hs => Json.noConfusion hs), ihr]
                      simp [List.filterMap_cons, msgOf_obj, metOf_obj,
                        plotOf_obj, ht, hty]
                  | arr elems =>
                      rw [parse_logs_cons_nonstrtag pairs rest t _ ht hty
                        (fun s hs => Json.noConfusion hs), ihr]
                      simp [List.filterMap_cons, msgOf_obj, metOf_obj,
                        plotOf_obj, ht, hty]
                  | obj prs =>
                      rw [parse_logs_cons_nonstrtag pairs rest t _ ht hty
                        (fun s hs => Json.noConfusion hs), ihr]
                      simp [List.filterMap_cons, msgOf_obj, metOf_obj,
                        plotOf_obj, ht, hty]

end ModelLogger

lemma installLoopFrom_all_fail (exitCode : Nat → Int) :
    ∀ (fuel i : Nat), (∀ j, j < fuel → exitCode (i + j) ≠ 0) →
      installLoopFrom exitCode i fuel =
        ⟨fuel, List.replicate fuel 3, false⟩
  | 0, i, _ => rfl
  | fuel + 1, i, h => by
      have h0 : exitCode i ≠ 0 := by
        simpa using h 0 (Nat.succ_pos fuel)
      rw [installLoopFrom, if_pos h0,
        installLoopFrom_all_fail exitCode fuel (i + 1) (fun j hj => by
          have := h (j + 1) (Nat.succ_lt_succ hj)
          simpa [Nat.add_comm, Nat.add_left_comm] using this)]
      simp [List.replicate_succ]

lemma installLoopFrom_success (exitCode : Nat → Int) :
    ∀ (k fuel i : Nat), k < fuel → (∀ j, j < k → exitCode (i + j) ≠ 0) →
      exitCode (i + k) = 0 →
      installLoopFrom exitCode i fuel = ⟨k + 1, List.replicate k 3, true⟩
  | 0, 0, i, hk, _, _ => absurd hk (Nat.lt_irrefl 0)
  | 0, fuel + 1, i, _, _, hs => by
      have h0 : ¬exitCode i ≠ 0 := by simpa using hs
      rw [installLoopFrom, if_neg h0]
      rfl
  | k + 1, 0, i, hk, _, _ => absurd hk (Nat.not_lt_zero _)
  | k + 1, fuel + 1, i, hk, hf, hs => by
      have h0 : exitCode i ≠ 0 := by
        simpa using hf 0 (Nat.succ_pos k)
      rw [installLoopFrom, if_pos h0,
        installLoopFrom_success exitCode k fuel (i + 1)
          (Nat.lt_of_succ_lt_succ hk)
          (fun j hj => by
            have := hf (j + 1) (Nat.succ_lt_succ hj)
            simpa [Nat.add_comm, Nat.add_left_comm] using this)
          (by
            have : i + 1 + k = i + (k + 1) := by omega
            rw [this]
            exact hs)]
      simp [List.replicate_succ]

namespace ModelLogger

lemma log_record_pairs (tag : String) (vals : List (String × Json))
    (now : String) :
    objPairs (parse_log_line («_log» tag vals now)) =
      setKey (setKey vals "type" (Json.str tag)) "time" (Json.str now) := rfl

lemma log_record_lookup_type (tag : String) (vals : List (String × Json))
    (now : String) :
    (objPairs (parse_log_line («_log» tag vals now))).lookup "type" =
      some (Json.str tag) := by
  rw [log_record_pairs, lookup_setKey_ne _ _ _ _ (by decide)]
  exact lookup_setKey_self _ _ _

lemma log_record_lookup_time (tag : String) (vals : List (String × Json))
    (now : String) :
    (objPairs (parse_log_line («_log» tag vals now))).lookup "time" =
      some (Json.str now) := by
  rw [log_record_pairs]
  exact lookup_setKey_self _ _ _

lemma log_record_lookup_other (tag : String) (vals : List (String × Json))
    (now : String) (k : String) (h1 : k ≠ "type") (h2 : k ≠ "time") :
    (objPairs (parse_log_line («_log» tag vals now))).lookup k =
      vals.lookup k := by
  rw [log_record_pairs, lookup_setKey_ne _ _ _ _ h2,
    lookup_setKey_ne _ _ _ _ h1]

lemma recordTag_log_line (tag : String) (vals : List (String × Json))
    (now : String) : recordTag («_log» tag vals now) = some tag := by
  have h := log_record_lookup_type tag vals now
  rw [log_record_pairs] at h
  simp [recordTag, «_log», parse_log_line, h]

end ModelLogger

/-- Claim C1, as stated, is false: `define_plot` without `x_axis` stores
Python `None`, so the decoded plot record's `x_axis` field is JSON null,
not the string "time". -/
theorem C1_x_axis_counterexample :
    (ModelLogger.objPairs (ModelLogger.parse_log_line
      (ModelLogger.define_plot "Precision & Recall" ["precision", "recall"]
        none "2020-01-01T00:00:00"))).lookup "x_axis" = some Json.null ∧
    some Json.null ≠ some (Json.str "time") :=
  ⟨rfl, fun h => Json.noConfusion (Option.some.inj h)⟩

/-- Claim C1 (amended): for every title and metric-name list, `define_plot`
without `x_axis` emits a line whose decoded record has `x_axis` equal to
JSON null (Python `None`). -/
theorem C1_x_axis_null (title : String) (metrics : List String)
    (now : String) :
    (ModelLogger.objPairs (ModelLogger.parse_log_line
      (ModelLogger.define_plot title metrics none now))).lookup "x_axis" =
      some Json.null := rfl

/-- Claim C2, as stated, is false: the line `5` parses to a JSON number, and
`parse_logs` then raises a `TypeError` on `'time' in 5` instead of
discarding the line. -/
theorem C2_totality_counterexample :
    ModelLogger.parse_logs [Line.jval (Json.num 5)] =
      Except.error (PyError.typeError "argument is not iterable") ∧
    ∀ r, ModelLogger.parse_logs [Line.jval (Json.num 5)] ≠ Except.ok r :=
  ⟨rfl, fun _ h => Except.noConfusion h⟩

/-- Claim C2 (amended): `parse_log_line` is total (a parse failure yields
`{}`), a parse-failing line and a decoded dict missing `time` or `type` are
discarded, and `parse_logs` never raises provided every line parses to a
dict or fails to parse. -/
theorem C2_parse_totality :
    (∀ raw : String,
      ModelLogger.parse_log_line (Line.junk raw) = Json.obj []) ∧
    (∀ (raw : String) (rest : List Line),
      ModelLogger.parse_logs (Line.junk raw :: rest) =
        ModelLogger.parse_logs rest) ∧
    (∀ (pairs : List (String × Json)) (rest : List Line),
      pairs.lookup "time" = none ∨ pairs.lookup "type" = none →
      ModelLogger.parse_logs (Line.jval (Json.obj pairs) :: rest) =
        ModelLogger.parse_logs rest) ∧
    (∀ lines : List Line, (∀ l ∈ lines, ModelLogger.cleanLine l = true) →
      ∃ r, ModelLogger.parse_logs lines = Except.ok r) := by
  refine ⟨fun raw => rfl, fun raw rest => ModelLogger.parse_logs_junk raw rest,
    fun pairs rest h => ?_, fun lines h => ⟨_, ModelLogger.parse_logs_clean lines h⟩⟩
  rcases h with h | h
  · exact ModelLogger.parse_logs_cons_skip (Line.jval (Json.obj pairs)) rest
      (ModelLogger.missingTimeOrType_none_time pairs h)
  · rcases ht : pairs.lookup "time" with _ | t
    · exact ModelLogger.parse_logs_cons_skip (Line.jval (Json.obj pairs)) rest
        (ModelLogger.missingTimeOrType_none_time pairs ht)
    · exact ModelLogger.parse_logs_cons_skip (Line.jval (Json.obj pairs)) rest
        (ModelLogger.missingTimeOrType_none_type pairs t ht h)

/-- Witness for C2's amended theorem at concrete inputs. -/
theorem C2_parse_totality_witness :
    ModelLogger.parse_logs
      [Line.jval (Json.obj [("type", Json.str "MESSAGE")])] =
      ModelLogger.parse_logs [] ∧
    ∃ r, ModelLogger.parse_logs
      [Line.junk "oops", Line.jval (Json.obj [("time", Json.str "t"),
        ("type", Json.str "MESSAGE"), ("message", Json.str "m")])] =
      Except.ok r :=
  ⟨C2_parse_totality.2.2.1 [("type", Json.str "MESSAGE")] []
      (Or.inl rfl),
   C2_parse_totality.2.2.2 _ (by decide)⟩

/-- Claim C3: the install loop makes exactly 10 attempts and proceeds when
the command fails 9 times then succeeds; exactly 10 attempts then the fatal
error when it always fails; a success on attempt `k` exits immediately after
`k + 1` attempts; and each failing attempt is followed by one fixed sleep of
3 time-units. -/
theorem C3_install_retry (exitCode : Nat → Int) :
    ((∀ i, i < 9 → exitCode i ≠ 0) → exitCode 9 = 0 →
      installRetry exitCode = ⟨10, List.replicate 9 3, true⟩) ∧
    ((∀ i, i < 10 → exitCode i ≠ 0) →
      installRetry exitCode = ⟨10, List.replicate 10 3, false⟩) ∧
    (∀ k, k < 10 → (∀ i, i < k → exitCode i ≠ 0) → exitCode k = 0 →
      installRetry exitCode = ⟨k + 1, List.replicate k 3, true⟩) := by
  refine ⟨fun hf hs => ?_, fun hf => ?_, fun k hk hf hs => ?_⟩
  · exact installLoopFrom_success exitCode 9 10 0 (by omega)
      (fun j hj => by simpa using hf j hj) (by simpa using hs)
  · exact installLoopFrom_all_fail exitCode 10 0
      (fun j hj => by simpa using hf j hj)
  · exact installLoopFrom_success exitCode k 10 0 hk
      (fun j hj => by simpa using hf j hj) (by simpa using hs)

/-- Witness for C3 at concrete exit-status sequences. -/
theorem C3_install_retry_witness :
    installRetry (fun i => if i < 9 then 1 else 0) =
      ⟨10, List.replicate 9 3, true⟩ ∧
    installRetry (fun _ => 1) = ⟨10, List.replicate 10 3, false⟩ ∧
    installRetry (fun i => if i = 3 then 0 else 1) =
      ⟨4, List.replicate 3 3, true⟩ :=
  ⟨(C3_install_retry _).1 (by decide) (by decide),
   (C3_install_retry _).2.1 (fun i _ => by simp),
   (C3_install_retry _).2.2 3 (by decide) (by decide) (by decide)⟩

/-- Claim C4, as stated, is false: a valid metrics mapping may use the key
`type`, and encoding overwrites its value, so decoding does not reproduce
it. -/
theorem C4_round_trip_counterexample :
    (ModelLogger.objPairs (ModelLogger.parse_log_line
      (ModelLogger.«_log» LogType.METRICS [("type", Json.num 5)]
        "2020-01-01T00:00:00"))).lookup "type" =
      some (Json.str "METRICS") ∧
    some (Json.str "METRICS") ≠ some (Json.num 5) :=
  ⟨rfl, fun h => Json.noConfusion (Option.some.inj h)⟩

/-- Claim C4 (amended): encode-then-decode reproduces every semantic field
of a message event and of a plot-definition event, and of a metrics event
whose keys are distinct and disjoint from the reserved `type` and `time`;
the timestamp is reproduced verbatim in its second-resolution format. -/
theorem C4_round_trip :
    (∀ (text now : String),
      ModelLogger.parse_log_line (ModelLogger.«_log» LogType.MESSAGE
        [("message", Json.str text)] now) =
        Json.obj [("message", Json.str text), ("type", Json.str "MESSAGE"),
          ("time", Json.str now)]) ∧
    (∀ (title now : String) (metrics : List String) (x_axis : Option String),
      ModelLogger.parse_log_line
        (ModelLogger.define_plot title metrics x_axis now) =
        Json.obj [("title", Json.str title),
          ("metrics", Json.arr (metrics.map Json.str)),
          ("x_axis", ModelLogger.jsonOfOptStr x_axis),
          ("type", Json.str "PLOT"), ("time", Json.str now)]) ∧
    (∀ (vals : List (String × Json)) (now : String),
      (vals.map Prod.fst).Nodup →
      (∀ kv ∈ vals, kv.1 ≠ "type" ∧ kv.1 ≠ "time") →
      (∀ kv ∈ vals,
        (ModelLogger.objPairs (ModelLogger.parse_log_line
          (ModelLogger.«_log» LogType.METRICS vals now))).lookup kv.1 =
          some kv.2) ∧
      (ModelLogger.objPairs (ModelLogger.parse_log_line
        (ModelLogger.«_log» LogType.METRICS vals now))).lookup "type" =
        some (Json.str "METRICS") ∧
      (ModelLogger.objPairs (ModelLogger.parse_log_line
        (ModelLogger.«_log» LogType.METRICS vals now))).lookup "time" =
        some (Json.str now)) := by
  refine ⟨fun text now => rfl, fun title now metrics x_axis => rfl,
    fun vals now hnd hdisj => ⟨fun kv hkv => ?_, ?_, ?_⟩⟩
  · rw [ModelLogger.log_record_lookup_other _ _ _ _ (hdisj kv hkv).1
      (hdisj kv hkv).2]
    exact lookup_of_mem_nodup vals kv.1 kv.2 hnd (by cases kv; exact hkv)
  · exact ModelLogger.log_record_lookup_type _ _ _
  · exact ModelLogger.log_record_lookup_time _ _ _

/-- Witness for C4's amended theorem at a concrete metrics event. -/
theorem C4_round_trip_witness :
    (ModelLogger.objPairs (ModelLogger.parse_log_line
      (ModelLogger.«_log» LogType.METRICS
        [("loss", Json.num (1 / 2)), ("epoch", Json.num 1)]
        "2020-01-01T00:00:00"))).lookup "loss" = some (Json.num (1 / 2)) :=
  (C4_round_trip.2.2 [("loss", Json.num (1 / 2)), ("epoch", Json.num 1)]
    "2020-01-01T00:00:00" (by simp) (by simp)).1
    ("loss", Json.num (1 / 2)) (by simp)

/-- Claim C5, as stated, is false: the malformed line `null` is not dropped
by `parse_logs`; the whole call raises a `TypeError`. -/
theorem C5_batch_counterexample :
    ModelLogger.parse_logs [Line.jval Json.null] =
      Except.error (PyError.typeError "argument is not iterable") ∧
    ModelLogger.parse_logs [Line.jval Json.null] ≠
      Except.ok ([], [], []) :=
  ⟨rfl, fun h => Except.noConfusion h⟩

/-- Claim C5 (amended): on a sequence of lines each of which fails to parse
or parses to a dict, `parse_logs` returns exactly the well-formed records,
classified into the three categories by the `type` tag, dropping records
missing `type` or `time` and records with an unrecognized tag, preserving
the relative input order inside each category. -/
theorem C5_batch_classification (lines : List Line)
    (h : ∀ l ∈ lines, ModelLogger.cleanLine l = true) :
    ModelLogger.parse_logs lines = Except.ok
      (lines.filterMap ModelLogger.msgOf, lines.filterMap ModelLogger.metOf,
        lines.filterMap ModelLogger.plotOf) :=
  ModelLogger.parse_logs_clean lines h

/-- Witness for C5's amended theorem at a concrete mixed batch. -/
theorem C5_batch_classification_witness :
    ModelLogger.parse_logs
      [Line.junk "oops",
       Line.jval (Json.obj [("type", Json.str "MESSAGE"),
         ("time", Json.str "t1"), ("message", Json.str "m1")]),
       Line.jval (Json.obj [("time", Json.str "t2"),
         ("type", Json.str "METRICS"), ("a", Json.num 1)]),
       Line.jval (Json.obj [("type", Json.str "WEIRD"),
         ("time", Json.str "t3")]),
       Line.jval (Json.obj [("type", Json.str "PLOT"),
         ("time", Json.str "t4"), ("title", Json.str "p")]),
       Line.jval (Json.obj [("type", Json.str "MESSAGE")])] =
      Except.ok
        ([Json.obj [("time", Json.str "t1"), ("message", Json.str "m1")]],
         [Json.obj [("time", Json.str "t2"), ("a", Json.num 1)]],
         [Json.obj [("title", Json.str "p")]]) :=
  C5_batch_classification _ (by decide)

/-- Claim C6: a decoded metrics record carries the line's timestamp merged
flat alongside the metric pairs in one record, and a decoded plot record
carries only the plot's own fields, with no `time` key. -/
theorem C6_records_shape :
    (∀ (pairs : List (String × Json)) (t : Json),
      pairs.lookup "time" = some t →
      pairs.lookup "type" = some (Json.str "METRICS") →
      ModelLogger.parse_logs [Line.jval (Json.obj pairs)] =
        Except.ok ([],
          [Json.obj (("time", t) :: ModelLogger.cleanPairs pairs)], [])) ∧
    (∀ (pairs : List (String × Json)) (t : Json),
      pairs.lookup "time" = some t →
      pairs.lookup "type" = some (Json.str "PLOT") →
      ModelLogger.parse_logs [Line.jval (Json.obj pairs)] =
        Except.ok ([], [], [Json.obj (ModelLogger.cleanPairs pairs)]) ∧
      ∀ p ∈ ModelLogger.cleanPairs pairs, p.1 ≠ "time") := by
  constructor
  · intro pairs t ht hty
    rw [ModelLogger.parse_logs_cons_strtag pairs [] t "METRICS" ht hty]
    rfl
  · intro pairs t ht hty
    constructor
    · rw [ModelLogger.parse_logs_cons_strtag pairs [] t "PLOT" ht hty]
      rfl
    · intro p hp
      have h1 := (List.mem_filter.mp
        (List.mem_filter.mp hp).1).2
      simpa using h1

/-- Witness for C6 at concrete metrics and plot lines. -/
theorem C6_records_shape_witness :
    ModelLogger.parse_logs [Line.jval (Json.obj [("time", Json.str "t"),
      ("type", Json.str "METRICS"), ("loss", Json.num 1)])] =
      Except.ok ([], [Json.obj [("time", Json.str "t"),
        ("loss", Json.num 1)]], []) ∧
    ModelLogger.parse_logs [Line.jval (Json.obj [("time", Json.str "t"),
      ("type", Json.str "PLOT"), ("title", Json.str "p")])] =
      Except.ok ([], [], [Json.obj [("title", Json.str "p")]]) :=
  ⟨C6_records_shape.1 [("time", Json.str "t"), ("type", Json.str "METRICS"),
      ("loss", Json.num 1)] (Json.str "t") rfl rfl,
   (C6_records_shape.2 [("time", Json.str "t"), ("type", Json.str "PLOT"),
      ("title", Json.str "p")] (Json.str "t") rfl rfl).1⟩

/-- Claim C7: one `log` call emits one MESSAGE record exactly when the
message is non-empty and one METRICS record exactly when the metrics
mapping is non-empty, hence zero, one or two records per call; and
`log(metrics = loss: 1/2, epoch: 1)` emits exactly the one METRICS record
holding both keys and no MESSAGE record. -/
theorem C7_log_emission (msg : String) (vals : List (String × Json))
    (now : String) :
    ((ModelLogger.log msg vals now).countP
        (fun l => decide (ModelLogger.recordTag l = some "MESSAGE")) =
      if msg = "" then 0 else 1) ∧
    ((ModelLogger.log msg vals now).countP
        (fun l => decide (ModelLogger.recordTag l = some "METRICS")) =
      if vals.isEmpty then 0 else 1) ∧
    (ModelLogger.log msg vals now).length ≤ 2 ∧
    ModelLogger.log "" [("loss", Json.num (1 / 2)), ("epoch", Json.num 1)]
        now =
      [Line.jval (Json.obj [("loss", Json.num (1 / 2)),
        ("epoch", Json.num 1), ("type", Json.str "METRICS"),
        ("time", Json.str now)])] := by
  have hmsg : ModelLogger.recordTag (ModelLogger.«_log» "MESSAGE"
      [("message", Json.str msg)] now) = some "MESSAGE" :=
    ModelLogger.recordTag_log_line _ _ _
  have hmet : ModelLogger.recordTag (ModelLogger.«_log» "METRICS" vals now) =
      some "METRICS" :=
    ModelLogger.recordTag_log_line _ _ _
  unfold ModelLogger.log
  refine ⟨?_, ?_, ?_, rfl⟩
  · by_cases h1 : msg = ""
    · by_cases h2 : vals.isEmpty
      · simp [h1, h2]
      · simp [h1, h2, LogType.METRICS, hmet]
    · by_cases h2 : vals.isEmpty
      · simp [h1, h2, LogType.MESSAGE, hmsg]
      · simp [h1, h2, LogType.MESSAGE, LogType.METRICS, hmsg, hmet]
  · by_cases h1 : msg = ""
    · by_cases h2 : vals.isEmpty
      · simp [h1, h2]
      · simp [h1, h2, LogType.METRICS, hmet]
    · by_cases h2 : vals.isEmpty
      · simp [h1, h2, LogType.MESSAGE, hmsg]
      · simp [h1, h2, LogType.MESSAGE, LogType.METRICS, hmsg, hmet]
  · by_cases h1 : msg = ""
    · by_cases h2 : vals.isEmpty
      · simp [h1, h2]
      · simp [h1, h2]
    · by_cases h2 : vals.isEmpty
      · simp [h1, h2]
      · simp [h1, h2]

/-- Claim C8: for any service type outside the three known ones,
`start_worker` raises the fatal `Exception` whose message names the
offending type string, regardless of the prior worker state; no branch
constructing a worker is reached. -/
theorem C8_unknown_service_type (service_id service_type container_id :
    String) (worker : Option WorkerKind)
    (h1 : service_type ≠ ServiceType.TRAIN)
    (h2 : service_type ≠ ServiceType.INFERENCE)
    (h3 : service_type ≠ ServiceType.ADVISOR) :
    start_worker service_id service_type container_id worker =
      Except.error ("Invalid service type: " ++ service_type) := by
  simp [start_worker, h1, h2, h3]

/-- Witness for C8 at the service type BOGUS. -/
theorem C8_unknown_service_type_witness :
    start_worker "sid" "BOGUS" "cid" none =
      Except.error "Invalid service type: BOGUS" :=
  C8_unknown_service_type "sid" "BOGUS" "cid" none (by decide) (by decide)
    (by decide)

/-- Claim C9: `stop_worker` with no worker ever constructed is a safe no-op
that signals nothing and leaves the worker state unchanged; with a
constructed worker it signals exactly that worker and keeps the state. -/
theorem C9_stop_worker_noop :
    stop_worker none = (none, []) ∧
    ∀ w : WorkerKind, stop_worker (some w) = (some w, [w]) :=
  ⟨rfl, fun _ => rfl⟩

/-- Claim C10: encoding overwrites caller-supplied `type` and `time` metric
keys with the tag and the timestamp; consequently, for number-valued
metrics, the encode-decode round trip preserves every metric value exactly
when the metric keys avoid `type` and `time`. -/
theorem C10_reserved_keys_overwritten (vals : List (String × Json))
    (now : String) :
    (∀ tag : String,
      (ModelLogger.objPairs (ModelLogger.parse_log_line
        (ModelLogger.«_log» tag vals now))).lookup "type" =
        some (Json.str tag) ∧
      (ModelLogger.objPairs (ModelLogger.parse_log_line
        (ModelLogger.«_log» tag vals now))).lookup "time" =
        some (Json.str now)) ∧
    ((∀ kv ∈ vals, ∃ q : ℚ, kv.2 = Json.num q) →
      (∃ kv ∈ vals, kv.1 = "type" ∨ kv.1 = "time") →
      ∃ kv ∈ vals,
        (ModelLogger.objPairs (ModelLogger.parse_log_line
          (ModelLogger.«_log» "METRICS" vals now))).lookup kv.1 ≠
          some kv.2) ∧
    ((vals.map Prod.fst).Nodup →
      (∀ kv ∈ vals, kv.1 ≠ "type" ∧ kv.1 ≠ "time") →
      ∀ kv ∈ vals,
        (ModelLogger.objPairs (ModelLogger.parse_log_line
          (ModelLogger.«_log» "METRICS" vals now))).lookup kv.1 =
          some kv.2) := by
  refine ⟨fun tag => ⟨ModelLogger.log_record_lookup_type _ _ _,
      ModelLogger.log_record_lookup_time _ _ _⟩,
    fun hnum hres => ?_, fun hnd hdisj kv hkv => ?_⟩
  · rcases hres with ⟨kv, hkv, hk | hk⟩
    · refine ⟨kv, hkv, ?_⟩
      rw [hk]
      rw [ModelLogger.log_record_lookup_type "METRICS" vals now]
      rcases hnum kv hkv with ⟨q, hq⟩
      rw [hq]
      exact fun h => Json.noConfusion (Option.some.inj h)
    · refine ⟨kv, hkv, ?_⟩
      rw [hk]
      rw [ModelLogger.log_record_lookup_time "METRICS" vals now]
      rcases hnum kv hkv with ⟨q, hq⟩
      rw [hq]
      exact fun h => Json.noConfusion (Option.some.inj h)
  · rw [ModelLogger.log_record_lookup_other _ _ _ _ (hdisj kv hkv).1
      (hdisj kv hkv).2]
    exact lookup_of_mem_nodup vals kv.1 kv.2 hnd (by cases kv; exact hkv)

/-- Witness for C10: the metrics mapping with the single reserved key
`type` loses its value in the round trip. -/
theorem C10_reserved_keys_overwritten_witness :
    ∃ kv ∈ [("type", Json.num 5)],
      (ModelLogger.objPairs (ModelLogger.parse_log_line
        (ModelLogger.«_log» "METRICS" [("type", Json.num 5)]
          "2020-01-01T00:00:00"))).lookup kv.1 ≠ some kv.2 :=
  (C10_reserved_keys_overwritten [("type", Json.num 5)]
    "2020-01-01T00:00:00").2.1
    (fun kv hkv => by
      simp only [List.mem_singleton] at hkv
      exact ⟨5, by rw [hkv]⟩)
    ⟨("type", Json.num 5), by simp⟩
